import Mathlib

/-!
Verification development for the IBKR auto-vertical-spread trader
(`src/python/src/...`).  Python floats are embedded as rationals (`ℚ`),
Python ints as `ℤ`/`ℕ`, dictionaries as association lists with unique keys
(first-match lookup), and `datetime` instants as rationals supplied by the
caller (the code always reads the clock through `datetime.now()`).
Alerting and logging calls are sinks and are dropped from the embedding.
-/

set_option autoImplicit false

namespace IBKR

/-! ### Dictionary helpers (Python `dict` / `defaultdict` on string keys) -/

/-- Lookup with a default, `d.get(k, v)` / `defaultdict` read. -/
def lookupD {β : Type} (m : List (String × β)) (k : String) (v : β) : β :=
  (List.lookup k m).getD v

/-- `d[k] = v`: replace the binding of `k` if present, else append it. -/
def setKey {β : Type} (m : List (String × β)) (k : String) (v : β) :
    List (String × β) :=
  match m with
  | [] => [(k, v)]
  | (k', v') :: rest => if k' = k then (k, v) :: rest else (k', v') :: setKey rest k v

/-- `del d[k]`: remove the binding of `k` (first occurrence). -/
def eraseKey {β : Type} (m : List (String × β)) (k : String) :
    List (String × β) :=
  match m with
  | [] => []
  | (k', v') :: rest => if k' = k then rest else (k', v') :: eraseKey rest k

/-- First `some` in a list of options; models a sequence of early-`return`
checks evaluated left to right. -/
def firstSome {α : Type} : List (Option α) → Option α
  | [] => none
  | some a :: _ => some a
  | none :: rest => firstSome rest

/-! ### Python numeric helpers -/

/-- Python `int(x)`: truncation toward zero. -/
def pyInt (q : ℚ) : ℤ := if 0 ≤ q then ⌊q⌋ else ⌈q⌉

/-- Python `abs(x)`. -/
def pyAbs (q : ℚ) : ℚ := if q < 0 then -q else q

/-- Model of Python fixed-point float formatting (`f"{x:.nf}"`) on the
rational embedding, rounding half away from zero (CPython rounds the
underlying binary float half to even; no theorem below depends on the
rendering of a non-integer number). -/
def pyFmtFixed (nd : ℕ) (q : ℚ) : String :=
  let scaled : ℤ := ⌊(if q < 0 then -q else q) * (10 : ℚ) ^ nd + 1/2⌋
  let ip := scaled / (10 : ℤ) ^ nd
  let fp := (scaled % (10 : ℤ) ^ nd).toNat
  let fpStr := toString fp
  let pad := String.mk (List.replicate (nd - fpStr.length) '0')
  (if q < 0 ∧ scaled ≠ 0 then "-" else "") ++ toString ip.toNat ++
    (if nd = 0 then "" else "." ++ pad ++ fpStr)

/-! ### Data model: `src/python/src/models/option.py` -/

/-- The `Option` dataclass (a single option contract); named
`OptionContract` here because `Option` is taken in Lean. -/
structure OptionContract where
  symbol : String
  underlying : String
  option_type : String
  strike : ℚ
  expiration : ℤ
  bid : ℚ
  ask : ℚ
  last : ℚ
  volume : ℤ
  open_interest : ℤ
  implied_volatility : ℚ
  delta : ℚ
  gamma : ℚ
  theta : ℚ
  vega : ℚ
  rho : ℚ
deriving DecidableEq

/-- The `OptionSpread` dataclass. -/
structure OptionSpread where
  symbol : String
  expiration : ℤ
  spread_type : String
  long_leg : OptionContract
  short_leg : OptionContract
  cost : ℚ
  max_profit : ℚ
  max_loss : ℚ
  delta : ℚ
  reward_risk_ratio : ℚ
deriving DecidableEq

/-- `OptionSpread(...)` construction including `__post_init__`:
if the (defaulted-to-0) `reward_risk_ratio` argument is 0 and
`max_loss > 0`, the ratio is recomputed as `max_profit / max_loss`. -/
def mkOptionSpread (symbol : String) (expiration : ℤ) (spread_type : String)
    (long_leg short_leg : OptionContract)
    (cost max_profit max_loss delta reward_risk_ratio : ℚ) : OptionSpread :=
  let r := if reward_risk_ratio = 0 ∧ max_loss > 0
    then max_profit / max_loss else reward_risk_ratio
  ⟨symbol, expiration, spread_type, long_leg, short_leg,
    cost, max_profit, max_loss, delta, r⟩

/-! ### `OptionSelector.create_call_vertical_spreads` /
`create_put_vertical_spreads` (`src/python/src/trading/option_selector.py`) -/

/-- `sorted(opts, key=lambda x: x.strike)` (stable). -/
def sortByStrike (l : List OptionContract) : List OptionContract :=
  l.mergeSort (fun a b => decide (a.strike ≤ b.strike))

/-- Loop body of `create_call_vertical_spreads` for one adjacent pair
`(long_call, short_call)`: `none` models the `continue` on
non-positive max profit. -/
def mkCallSpread? (expiry : ℤ) (p : OptionContract × OptionContract) :
    Option OptionSpread :=
  let long_call := p.1
  let short_call := p.2
  let cost := long_call.ask - short_call.bid
  let max_profit := short_call.strike - long_call.strike - cost
  let max_loss := cost
  if max_profit ≤ 0 then none
  else
    let net_delta := long_call.delta - short_call.delta
    some (mkOptionSpread long_call.underlying expiry "BULL_CALL"
      long_call short_call (cost * 100) (max_profit * 100) (max_loss * 100)
      net_delta (if cost > 0 then max_profit / cost else 0))

/-- Per-expiration body of `create_call_vertical_spreads`. -/
def callSpreadsForChain (expiry : ℤ) (chain : List OptionContract) :
    List OptionSpread :=
  let calls := sortByStrike (chain.filter (fun o => o.option_type = "call"))
  if calls.length < 2 then []
  else (calls.zip calls.tail).filterMap (mkCallSpread? expiry)

/-- `create_call_vertical_spreads(option_chains, current_price)`;
`current_price` is accepted but unused by the source body. -/
def createCallVerticalSpreads (option_chains : List (ℤ × List OptionContract))
    (current_price : ℚ) : List OptionSpread :=
  option_chains.foldl (fun acc p => acc ++ callSpreadsForChain p.1 p.2) []

/-- Loop body of `create_put_vertical_spreads` for one adjacent pair
`(short_put, long_put)` (puts sorted ascending; the lower strike is sold). -/
def mkPutSpread? (expiry : ℤ) (p : OptionContract × OptionContract) :
    Option OptionSpread :=
  let short_put := p.1
  let long_put := p.2
  let cost := long_put.ask - short_put.bid
  let max_profit := long_put.strike - short_put.strike - cost
  let max_loss := cost
  if max_profit ≤ 0 then none
  else
    let net_delta := long_put.delta - short_put.delta
    some (mkOptionSpread long_put.underlying expiry "BEAR_PUT"
      long_put short_put (cost * 100) (max_profit * 100) (max_loss * 100)
      net_delta (if cost > 0 then max_profit / cost else 0))

/-- Per-expiration body of `create_put_vertical_spreads`. -/
def putSpreadsForChain (expiry : ℤ) (chain : List OptionContract) :
    List OptionSpread :=
  let puts := sortByStrike (chain.filter (fun o => o.option_type = "put"))
  if puts.length < 2 then []
  else (puts.zip puts.tail).filterMap (mkPutSpread? expiry)

/-- `create_put_vertical_spreads(option_chains, current_price)`. -/
def createPutVerticalSpreads (option_chains : List (ℤ × List OptionContract))
    (current_price : ℚ) : List OptionSpread :=
  option_chains.foldl (fun acc p => acc ++ putSpreadsForChain p.1 p.2) []

/-! ### `OptionSpreadFilter` (`src/python/src/options/spread_filter.py`)

The filter operates on plain dictionaries; the fields below are the keys the
filter reads, with the `.get(key, 0)` defaults realized by the caller
choosing field values (a missing key is a field holding the default). -/

/-- A candidate spread dictionary as consumed by `OptionSpreadFilter`. -/
structure FilterSpread where
  dte : ℤ
  atr : ℚ
  delta : ℚ
  cost : ℚ
  reward_risk : ℚ
  leg1_open_interest : ℤ
  leg2_open_interest : ℤ
  leg1_bid : ℚ
  leg1_ask : ℚ
  leg2_bid : ℚ
  leg2_ask : ℚ
  theta : ℚ
  vega : ℚ
  gamma : ℚ
  probability_of_profit : ℚ
  leg1_strike : ℚ
  leg2_strike : ℚ
deriving DecidableEq

/-- The `underlying_data` dictionary.  `days_to_earnings` /
`days_to_ex_div` embed `strptime(date_str) - today` for a present,
well-formed date string; `none` embeds a missing or unparsable one. -/
structure FilterUnderlying where
  iv_rank : ℚ
  call_put_skew : ℚ
  expected_move : ℚ
  days_to_earnings : Option ℤ
  days_to_ex_div : Option ℤ
deriving DecidableEq

/-- The configuration captured in `OptionSpreadFilter.__init__`, with the
source's `config.get` defaults as field defaults. -/
structure FilterConfig where
  min_dte : ℤ := 30
  max_dte : ℤ := 45
  min_delta : ℚ := 3/10
  max_delta : ℚ := 45/100
  max_spread_cost : ℚ := 500
  min_reward_risk : ℚ := 3/2
  min_open_interest : ℤ := 1000
  max_bid_ask_spread_pct : ℚ := 1/2
  min_iv_rank : ℚ := 0
  max_iv_rank : ℚ := 100
  min_call_put_skew_pct : ℚ := 0
  max_theta_per_day : ℚ := 10
  max_vega_exposure : ℚ := 2/5
  max_gamma_exposure : ℚ := 2/5
  min_prob_of_profit : ℚ := 65
  max_width_vs_move_pct : ℚ := 150
  days_before_earnings : ℤ := 5
  days_before_ex_div : ℤ := 3
  dte_from_atr : Bool := false
  atr_coefficient : ℚ := 2
deriving DecidableEq

/-- `_check_basic_criteria`: DTE window (fixed or ATR-scaled), |delta|
band, dollar cost cap, reward/risk floor. -/
def checkBasicCriteria (cfg : FilterConfig) (s : FilterSpread) : Bool :=
  let dteOk :=
    if cfg.dte_from_atr then
      let adjusted_min_dte := max cfg.min_dte (pyInt (s.atr * cfg.atr_coefficient))
      let adjusted_max_dte := max cfg.max_dte (pyInt (s.atr * cfg.atr_coefficient * 3/2))
      ¬(s.dte < adjusted_min_dte ∨ s.dte > adjusted_max_dte)
    else
      ¬(s.dte < cfg.min_dte ∨ s.dte > cfg.max_dte)
  if ¬dteOk then false
  else if pyAbs s.delta < cfg.min_delta ∨ pyAbs s.delta > cfg.max_delta then false
  else if s.cost * 100 > cfg.max_spread_cost then false
  else if s.reward_risk < cfg.min_reward_risk then false
  else true

/-- `_check_liquidity`: minimum open interest on the worse leg, and
per-leg bid-ask spread percentage cap (rejecting zero asks). -/
def checkLiquidity (cfg : FilterConfig) (s : FilterSpread) : Bool :=
  if min s.leg1_open_interest s.leg2_open_interest < cfg.min_open_interest then false
  else if s.leg1_ask = 0 ∨ s.leg2_ask = 0 then false
  else
    let leg1_spread_pct := (s.leg1_ask - s.leg1_bid) / s.leg1_ask * 100
    let leg2_spread_pct := (s.leg2_ask - s.leg2_bid) / s.leg2_ask * 100
    if max leg1_spread_pct leg2_spread_pct > cfg.max_bid_ask_spread_pct then false
    else true

/-- `_check_iv_regime`: IV-rank window and call/put skew floor (both read
from `underlying_data` as fractions, scaled to percent); the `spread`
argument is accepted but unread, as in the source. -/
def checkIvRegime (cfg : FilterConfig) (spread : FilterSpread)
    (u : FilterUnderlying) : Bool :=
  if u.iv_rank * 100 < cfg.min_iv_rank ∨ u.iv_rank * 100 > cfg.max_iv_rank then false
  else if u.call_put_skew * 100 < cfg.min_call_put_skew_pct then false
  else true

/-- `_check_greek_risks`: theta (dollars/day), vega, gamma caps. -/
def checkGreekRisks (cfg : FilterConfig) (s : FilterSpread) : Bool :=
  if pyAbs s.theta * 100 > cfg.max_theta_per_day then false
  else if pyAbs s.vega > cfg.max_vega_exposure then false
  else if pyAbs s.gamma > cfg.max_gamma_exposure then false
  else true

/-- `_check_probability_metrics`: probability-of-profit floor and spread
width versus expected move (skipped when the expected move is 0). -/
def checkProbabilityMetrics (cfg : FilterConfig) (s : FilterSpread)
    (u : FilterUnderlying) : Bool :=
  if s.probability_of_profit * 100 < cfg.min_prob_of_profit then false
  else if u.expected_move = 0 then true
  else
    let spread_width := pyAbs (s.leg1_strike - s.leg2_strike)
    if spread_width / u.expected_move * 100 > cfg.max_width_vs_move_pct then false
    else true

/-- `0 <= days_to_event <= threshold` for a present, parsable date. -/
def eventWithin (d : Option ℤ) (threshold : ℤ) : Bool :=
  match d with
  | some dd => decide (0 ≤ dd ∧ dd ≤ threshold)
  | none => false

/-- `_check_calendar_events`: reject within the earnings or ex-dividend
exclusion windows (inclusive of day 0). -/
def checkCalendarEvents (cfg : FilterConfig) (u : FilterUnderlying) : Bool :=
  if eventWithin u.days_to_earnings cfg.days_before_earnings then false
  else if eventWithin u.days_to_ex_div cfg.days_before_ex_div then false
  else true

/-- `_passes_all_filters`: the six checks in source order, each an early
`return False`. -/
def passesAllFilters (cfg : FilterConfig) (s : FilterSpread)
    (u : FilterUnderlying) : Bool :=
  if ¬checkBasicCriteria cfg s then false
  else if ¬checkLiquidity cfg s then false
  else if ¬checkIvRegime cfg s u then false
  else if ¬checkGreekRisks cfg s then false
  else if ¬checkProbabilityMetrics cfg s u then false
  else if ¬checkCalendarEvents cfg u then false
  else true

/-- `filter_spreads`: keep the candidates passing all filters, in order. -/
def filterSpreads (cfg : FilterConfig) (spreads : List FilterSpread)
    (u : FilterUnderlying) : List FilterSpread :=
  spreads.filter (fun s => passesAllFilters cfg s u)

/-! ### `RiskManager` (`src/python/src/trading/risk_manager.py`) -/

/-- The configuration fields read by the embedded `RiskManager`,
`ExitStrategyManager` and `TradeExecutor` code; fields accessed through
`getattr(config, name, default)` carry that default. -/
structure Config where
  RISK_PER_TRADE : ℚ
  MAX_CONTRACTS_PER_TRADE : ℤ
  MAX_DAILY_TRADES : ℕ
  MAX_POSITIONS : ℕ
  MAX_PORTFOLIO_HEAT : ℚ
  MAX_SECTOR_EXPOSURE : ℚ
  MAX_INDUSTRY_EXPOSURE : ℚ
  MAX_DIRECTIONAL_BIAS : ℚ
  MIN_BUYING_POWER : ℚ
  STOP_LOSS_PERCENTAGE : ℚ := 1/2
  TARGET_REWARD_RISK : ℚ := 3/2
  MAX_POSITION_SIZE : ℚ := 10000
  TRAILING_STOP_PERCENTAGE : ℚ := 1/5
  USE_TRAILING_STOP : Bool := false
  USE_ADAPTIVE_ATR_EXIT : Bool := false
  ALLOW_LATE_DAY_ENTRY : Bool := true
  PRICE_IMPROVEMENT_FACTOR : ℚ := 2/5
  TRADING_MODE : String := "PAPER"
deriving DecidableEq

/-- The broker collaborator's observable answers, as consumed by the
embedded code paths: `get_account_summary()["net_liquidation"]` (with its
`.get` default already resolved), `.get("available_funds", 0)`, and
`get_symbol_fundamentals(symbol)["sector"/"industry"]`. -/
structure BrokerAPI where
  net_liquidation : ℚ := 100000
  available_funds : ℚ := 0
  sectorOf : String → Option String
  industryOf : String → Option String

/-- The optional collaborators of a `RiskManager` (`broker_api=None` in
`__init__` is `broker = none`). -/
structure Env where
  broker : Option BrokerAPI

/-- `get_account_value`: broker net liquidation, or the 100000.0 default
without a broker. -/
def getAccountValue (env : Env) : ℚ :=
  match env.broker with
  | some b => b.net_liquidation
  | none => 100000

/-- `get_sector_industry`: fundamentals lookup through the broker, else
`(None, None)`. -/
def getSectorIndustry (env : Env) (symbol : String) :
    Option String × Option String :=
  match env.broker with
  | some b => (b.sectorOf symbol, b.industryOf symbol)
  | none => (none, none)

/-- One record appended to `daily_trades[today]` by `record_trade`. -/
structure TradeRecord where
  symbol : String
  direction : String
  contracts : ℤ
  spread_type : String
  expiration : ℤ
  cost : ℚ
  timestamp : ℚ
deriving DecidableEq

/-- The position dictionary created by `record_trade` and later mutated by
`ExitStrategyManager` (`highest_price`, `lowest_price`, `trailing_stop`,
`atr_exit` are absent — `none` — until that manager writes them). -/
structure Position where
  direction : String
  contracts : ℤ
  spread : OptionSpread
  entry_date : String
  entry_price : ℚ
  stop_price : ℚ
  target_price : ℚ
  highest_price : Option ℚ := none
  lowest_price : Option ℚ := none
  trailing_stop : Option ℚ := none
  atr_exit : Option ℚ := none
deriving DecidableEq

/-- The mutable dictionaries of a `RiskManager` that the embedded
operations touch (dates are their `"%Y-%m-%d"` strings). -/
structure RiskState where
  daily_trades : List (String × List TradeRecord)
  active_positions : List (String × Position)
  sector_exposure : List (String × ℚ)
  industry_exposure : List (String × ℚ)
deriving DecidableEq

/-- The empty state established by `RiskManager.__init__`. -/
def initRiskState : RiskState := ⟨[], [], [], []⟩

/-- `calculate_position_size(account_value, spread_cost)` — the FIRST
definition (risk_manager.py lines 52-85).  In Python this definition is
dead code: the second method of the same name (lines 340-373) silently
replaces it in the class namespace. -/
def calculate_position_size_first_def (cfg : Config)
    (account_value spread_cost : ℚ) : ℤ :=
  let max_risk_amount := account_value * cfg.RISK_PER_TRADE
  let contracts : ℤ := if spread_cost > 0 then ⌊max_risk_amount / spread_cost⌋ else 0
  let contracts := min contracts cfg.MAX_CONTRACTS_PER_TRADE
  if contracts > 0 then max contracts 1 else 0

/-- `calculate_position_size(symbol, price)` — the SECOND definition
(lines 340-373), the one a `RiskManager` object actually has.  The
account value comes from the broker's `net_liquidation` or the hardcoded
100000.0 default; `symbol` is unread. -/
def calculate_position_size (env : Env) (cfg : Config) (symbol : String)
    (price : ℚ) : ℤ :=
  let account_value : ℚ :=
    match env.broker with
    | some b => b.net_liquidation
    | none => 100000
  let risk_per_trade := cfg.RISK_PER_TRADE
  let max_risk := account_value * risk_per_trade
  let position_size := pyInt (max_risk / price)
  let position_size :=
    if position_size * price > cfg.MAX_POSITION_SIZE
    then pyInt (cfg.MAX_POSITION_SIZE / price) else position_size
  max 1 position_size

/-- `calculate_stop_price`. -/
def calculateStopPrice (cfg : Config) (option_spread : OptionSpread) : ℚ :=
  let stop_price := option_spread.cost * (1 - cfg.STOP_LOSS_PERCENTAGE)
  max stop_price (5/100)

/-- `calculate_target_price` (the SHORT branch reads the premium for both
`BEAR_CALL` and bull-put spreads, as in the source). -/
def calculateTargetPrice (cfg : Config) (option_spread : OptionSpread)
    (direction : String) : ℚ :=
  let max_profit :=
    if direction = "LONG" then
      if option_spread.spread_type = "BULL_CALL" then
        (option_spread.short_leg.strike - option_spread.long_leg.strike) -
          option_spread.cost
      else
        (option_spread.long_leg.strike - option_spread.short_leg.strike) -
          option_spread.cost
    else
      if option_spread.spread_type = "BEAR_CALL" then option_spread.cost
      else option_spread.cost
  let risk := option_spread.cost
  let target_profit := min max_profit (risk * cfg.TARGET_REWARD_RISK)
  if direction = "LONG" then option_spread.cost + target_profit
  else max (option_spread.cost - target_profit) (5/100)

/-- `calculate_portfolio_heat`: Σ entry_price·contracts·100·risk fraction,
as a percentage of account value (0 for a non-positive account value). -/
def calculatePortfolioHeat (env : Env) (cfg : Config) (st : RiskState) : ℚ :=
  let account_value := getAccountValue env
  let total_risk := st.active_positions.foldl
    (fun acc p =>
      let position_cost := p.2.entry_price * (p.2.contracts : ℚ) * 100
      acc + position_cost * cfg.RISK_PER_TRADE) 0
  if account_value > 0 then total_risk / account_value * 100 else 0

/-- `calculate_directional_exposure`: percentage shares of long and short
notional (0, 0 when there is no exposure). -/
def calculateDirectionalExposure (st : RiskState) : ℚ × ℚ :=
  let e := st.active_positions.foldl
    (fun acc p =>
      let position_cost := p.2.entry_price * (p.2.contracts : ℚ) * 100
      if p.2.direction = "LONG" then (acc.1 + position_cost, acc.2)
      else (acc.1, acc.2 + position_cost)) ((0 : ℚ), (0 : ℚ))
  let long_exposure := e.1
  let short_exposure := e.2
  let total_exposure := long_exposure + short_exposure
  if total_exposure > 0 then
    (long_exposure / total_exposure * 100, short_exposure / total_exposure * 100)
  else (0, 0)

/-- `symbol in active_positions and active_positions[symbol]["direction"]
== direction` — the same-direction-conflict condition. -/
def existingSameDirection (st : RiskState) (symbol direction : String) : Bool :=
  match List.lookup symbol st.active_positions with
  | some position => position.direction = direction
  | none => false

/-- Model of `str(float)` for the one message that interpolates a bare
float (no theorem below inspects such a message). -/
def pyStrFloat (q : ℚ) : String := pyFmtFixed 1 q

/-- `can_enter_trade(symbol, direction, cost_per_contract)`, decision
only.  `today` is `datetime.now().date().strftime("%Y-%m-%d")`; the
method's insertion of an empty list under a missing `today` key cannot
change the decision (an empty list never reaches any limit ≥ it) and is
modelled by the `lookupD … []` read.  Alerts are sinks and dropped. -/
def canEnterTrade (cfg : Config) (env : Env) (st : RiskState) (today : String)
    (symbol direction : String) (cost_per_contract : ℚ) : Bool × String :=
  if cfg.MAX_DAILY_TRADES ≤ (lookupD st.daily_trades today []).length then
    (false, "Maximum daily trades limit (" ++ toString cfg.MAX_DAILY_TRADES ++
      ") reached")
  else if cfg.MAX_POSITIONS ≤ st.active_positions.length then
    (false, "Maximum positions limit (" ++ toString cfg.MAX_POSITIONS ++
      ") reached")
  else if existingSameDirection st symbol direction then
    (false, "Already have a " ++ direction ++ " position in " ++ symbol)
  else
    let account_value := getAccountValue env
    let portfolio_heat := calculatePortfolioHeat env cfg st
    if cfg.MAX_PORTFOLIO_HEAT ≤ portfolio_heat then
      (false, "Maximum portfolio heat reached: " ++ pyFmtFixed 1 portfolio_heat ++
        "% >= " ++ pyStrFloat cfg.MAX_PORTFOLIO_HEAT ++ "%")
    else
      let sector := (getSectorIndustry env symbol).1
      let industry := (getSectorIndustry env symbol).2
      let sectorHit :=
        match sector with
        | some s =>
          if lookupD st.sector_exposure s 0 + cost_per_contract >
              account_value * cfg.MAX_SECTOR_EXPOSURE
          then some ((false, "Sector exposure limit reached for " ++ s)) else none
        | none => none
      match sectorHit with
      | some r => r
      | none =>
        let industryHit :=
          match industry with
          | some i =>
            if lookupD st.industry_exposure i 0 + cost_per_contract >
                account_value * cfg.MAX_INDUSTRY_EXPOSURE
            then some ((false, "Industry exposure limit reached for " ++ i))
            else none
          | none => none
        match industryHit with
        | some r => r
        | none =>
          let exposures := calculateDirectionalExposure st
          let long_exposure := exposures.1
          let short_exposure := exposures.2
          if direction = "LONG" ∧ long_exposure >
              cfg.MAX_DIRECTIONAL_BIAS * (long_exposure + short_exposure) then
            (false, "Maximum long exposure bias reached: " ++
              pyFmtFixed 1 long_exposure ++ "%")
          else if direction = "SHORT" ∧ short_exposure >
              cfg.MAX_DIRECTIONAL_BIAS * (long_exposure + short_exposure) then
            (false, "Maximum short exposure bias reached: " ++
              pyFmtFixed 1 short_exposure ++ "%")
          else
            match env.broker with
            | some b =>
              if b.available_funds < cfg.MIN_BUYING_POWER then
                (false, "Insufficient buying power: $" ++
                  pyFmtFixed 2 b.available_funds ++ " < $" ++
                  pyFmtFixed 2 cfg.MIN_BUYING_POWER)
              else (true, "Trade allowed")
            | none => (true, "Trade allowed")

/-- `record_trade(symbol, direction, contracts, spread)`: append today's
trade record, overwrite the active position (with computed stop/target),
and add the position notional to the sector/industry exposure totals. -/
def recordTrade (cfg : Config) (env : Env) (st : RiskState)
    (symbol direction : String) (contracts : ℤ) (spread : OptionSpread)
    (today : String) (now : ℚ) : RiskState :=
  let rec0 : TradeRecord :=
    ⟨symbol, direction, contracts, spread.spread_type, spread.expiration,
      spread.cost, now⟩
  let daily := setKey st.daily_trades today
    ((lookupD st.daily_trades today []) ++ [rec0])
  let position : Position :=
    { direction := direction
      contracts := contracts
      spread := spread
      entry_date := today
      entry_price := spread.cost
      stop_price := calculateStopPrice cfg spread
      target_price := calculateTargetPrice cfg spread direction }
  let active := setKey st.active_positions symbol position
  let si := getSectorIndustry env symbol
  let total_cost := spread.cost * (contracts : ℚ) * 100
  let sectors :=
    match si.1 with
    | some s => setKey st.sector_exposure s (lookupD st.sector_exposure s 0 + total_cost)
    | none => st.sector_exposure
  let industries :=
    match si.2 with
    | some i =>
      setKey st.industry_exposure i (lookupD st.industry_exposure i 0 + total_cost)
    | none => st.industry_exposure
  ⟨daily, active, sectors, industries⟩

/-- The `defaultdict` decrement-then-delete-at-`≤ 0` step used by
`close_position` on an exposure table. -/
def decExposure (m : List (String × ℚ)) (k : String) (amount : ℚ) :
    List (String × ℚ) :=
  let v := lookupD m k 0 - amount
  if v ≤ 0 then eraseKey m k else setKey m k v

/-- `close_position(symbol)`: pop the position and subtract its notional
from the exposure totals, deleting entries that fall to zero or below; a
no-op when the symbol has no active position. -/
def closePosition (env : Env) (st : RiskState) (symbol : String) : RiskState :=
  match List.lookup symbol st.active_positions with
  | none => st
  | some position =>
    let active := eraseKey st.active_positions symbol
    let si := getSectorIndustry env symbol
    let total_cost := position.spread.cost * (position.contracts : ℚ) * 100
    let sectors :=
      match si.1 with
      | some s => decExposure st.sector_exposure s total_cost
      | none => st.sector_exposure
    let industries :=
      match si.2 with
      | some i => decExposure st.industry_exposure i total_cost
      | none => st.industry_exposure
    ⟨st.daily_trades, active, sectors, industries⟩

/-! Admission checks of `can_enter_trade`, individually, in source order;
`some r` is the early `return r`. -/

/-- Check 1: the daily-trade-count limit. -/
def dailyTradesCheck (cfg : Config) (st : RiskState) (today : String) :
    Option (Bool × String) :=
  if cfg.MAX_DAILY_TRADES ≤ (lookupD st.daily_trades today []).length then
    some (false, "Maximum daily trades limit (" ++ toString cfg.MAX_DAILY_TRADES ++
      ") reached")
  else none

/-- Check 2: the active-position-count limit. -/
def positionsCheck (cfg : Config) (st : RiskState) : Option (Bool × String) :=
  if cfg.MAX_POSITIONS ≤ st.active_positions.length then
    some (false, "Maximum positions limit (" ++ toString cfg.MAX_POSITIONS ++
      ") reached")
  else none

/-- Check 3: an existing same-direction position in the symbol. -/
def symbolConflictCheck (st : RiskState) (symbol direction : String) :
    Option (Bool × String) :=
  if existingSameDirection st symbol direction then
    some (false, "Already have a " ++ direction ++ " position in " ++ symbol)
  else none

/-- Check 4: the portfolio-heat limit. -/
def heatCheck (cfg : Config) (env : Env) (st : RiskState) :
    Option (Bool × String) :=
  let portfolio_heat := calculatePortfolioHeat env cfg st
  if cfg.MAX_PORTFOLIO_HEAT ≤ portfolio_heat then
    some (false, "Maximum portfolio heat reached: " ++
      pyFmtFixed 1 portfolio_heat ++ "% >= " ++
      pyStrFloat cfg.MAX_PORTFOLIO_HEAT ++ "%")
  else none

/-- Check 5: the sector-exposure limit. -/
def sectorCheck (cfg : Config) (env : Env) (st : RiskState)
    (symbol : String) (cost_per_contract : ℚ) : Option (Bool × String) :=
  match (getSectorIndustry env symbol).1 with
  | some s =>
    if lookupD st.sector_exposure s 0 + cost_per_contract >
        getAccountValue env * cfg.MAX_SECTOR_EXPOSURE
    then some (false, "Sector exposure limit reached for " ++ s) else none
  | none => none

/-- Check 6: the industry-exposure limit. -/
def industryCheck (cfg : Config) (env : Env) (st : RiskState)
    (symbol : String) (cost_per_contract : ℚ) : Option (Bool × String) :=
  match (getSectorIndustry env symbol).2 with
  | some i =>
    if lookupD st.industry_exposure i 0 + cost_per_contract >
        getAccountValue env * cfg.MAX_INDUSTRY_EXPOSURE
    then some (false, "Industry exposure limit reached for " ++ i) else none
  | none => none

/-- Check 7: the directional-bias limit (both directions). -/
def biasCheck (cfg : Config) (st : RiskState) (direction : String) :
    Option (Bool × String) :=
  let exposures := calculateDirectionalExposure st
  let long_exposure := exposures.1
  let short_exposure := exposures.2
  if direction = "LONG" ∧ long_exposure >
      cfg.MAX_DIRECTIONAL_BIAS * (long_exposure + short_exposure) then
    some (false, "Maximum long exposure bias reached: " ++
      pyFmtFixed 1 long_exposure ++ "%")
  else if direction = "SHORT" ∧ short_exposure >
      cfg.MAX_DIRECTIONAL_BIAS * (long_exposure + short_exposure) then
    some (false, "Maximum short exposure bias reached: " ++
      pyFmtFixed 1 short_exposure ++ "%")
  else none

/-- Check 8: the minimum-buying-power check through the broker (skipped
without one). -/
def buyingPowerCheck (cfg : Config) (env : Env) : Option (Bool × String) :=
  match env.broker with
  | some b =>
    if b.available_funds < cfg.MIN_BUYING_POWER then
      some (false, "Insufficient buying power: $" ++
        pyFmtFixed 2 b.available_funds ++ " < $" ++
        pyFmtFixed 2 cfg.MIN_BUYING_POWER)
    else none
  | none => none

/-! ### `ExitStrategyManager` (`src/python/src/trading/exit_strategy.py`) -/

/-- `position.get("highest_price", entry_price)`. -/
def highestRef (p : Position) : ℚ := p.highest_price.getD p.entry_price

/-- `position.get("lowest_price", entry_price)`. -/
def lowestRef (p : Position) : ℚ := p.lowest_price.getD p.entry_price

/-- `_check_trailing_stop(position, current_price)`: update the stored
extreme in the favorable direction only, then compare against
`extreme · (1 ∓ trail_pct)`.  Returns the mutated position alongside the
`(should_exit, reason)` result. -/
def checkTrailingStop (cfg : Config) (position : Position)
    (current_price : ℚ) : Position × Bool × String :=
  let trail_percentage := cfg.TRAILING_STOP_PERCENTAGE
  if position.direction = "LONG" then
    let highest_price := highestRef position
    let position' :=
      if current_price > highest_price
      then { position with highest_price := some current_price } else position
    let highest_price :=
      if current_price > highest_price then current_price else highest_price
    let trailing_stop := highest_price * (1 - trail_percentage)
    if current_price ≤ trailing_stop then
      (position', true, "Trailing stop triggered (" ++
        pyFmtFixed 1 (trail_percentage * 100) ++ "% from high of " ++
        pyFmtFixed 2 highest_price ++ ")")
    else (position', false, "Trailing stop not triggered")
  else
    let lowest_price := lowestRef position
    let position' :=
      if current_price < lowest_price
      then { position with lowest_price := some current_price } else position
    let lowest_price :=
      if current_price < lowest_price then current_price else lowest_price
    let trailing_stop := lowest_price * (1 + trail_percentage)
    if current_price ≥ trailing_stop then
      (position', true, "Trailing stop triggered (" ++
        pyFmtFixed 1 (trail_percentage * 100) ++ "% from low of " ++
        pyFmtFixed 2 lowest_price ++ ")")
    else (position', false, "Trailing stop not triggered")

/-- `update_exits_for_position(position, current_price, underlying_data)`:
raise the trailing extreme and trailing stop on a new favorable extreme
(when trailing stops are enabled).  `atr_exit_value` stands for
`_calculate_atr_exit(entry, direction, underlying_data)` when the
adaptive-ATR branch fires (`none` when disabled or without data). -/
def updateExitsForPosition (cfg : Config) (position : Position)
    (current_price : ℚ) (atr_exit_value : Option ℚ) : Position :=
  let trail_percentage := cfg.TRAILING_STOP_PERCENTAGE
  let position :=
    if cfg.USE_TRAILING_STOP then
      if position.direction = "LONG" then
        let highest_price := highestRef position
        if current_price > highest_price then
          { position with
            highest_price := some current_price
            trailing_stop := some (current_price * (1 - trail_percentage)) }
        else position
      else
        let lowest_price := lowestRef position
        if current_price < lowest_price then
          { position with
            lowest_price := some current_price
            trailing_stop := some (current_price * (1 + trail_percentage)) }
        else position
    else position
  match atr_exit_value with
  | some v => { position with atr_exit := some v }
  | none => position

/-- Successive `_check_trailing_stop` observations threaded through the
mutated position. -/
def runTrailing (cfg : Config) (position : Position) (prices : List ℚ) :
    Position :=
  prices.foldl (fun p price => (checkTrailingStop cfg p price).1) position

/-! ### `TradeExecutor` (`src/python/src/trading/trade_executor.py`) -/

/-- The `execution_metrics` dictionary. -/
structure ExecMetrics where
  total_trades : ℕ
  successful_trades : ℕ
  failed_trades : ℕ
  avg_execution_time : ℚ
deriving DecidableEq

/-- A trade signal dictionary (`symbol`, `direction`). -/
structure TradeSignal where
  symbol : String
  direction : String
deriving DecidableEq

/-- A queued-trade dictionary. -/
structure QueuedTrade where
  signal : TradeSignal
  spread : OptionSpread
  size : ℤ
  queued_at : ℚ
deriving DecidableEq

/-- The mutable state of a `TradeExecutor`. -/
structure ExecState where
  queued_trades : List QueuedTrade
  metrics : ExecMetrics
  trading_mode : String
deriving DecidableEq

/-- `TradeExecutor.__init__`: empty queue, zeroed metrics, and
`config.TRADING_MODE or "PAPER"` (Python `or`: the empty string is
falsy). -/
def initExecState (cfg : Config) : ExecState :=
  ⟨[], ⟨0, 0, 0, 0⟩, if cfg.TRADING_MODE = "" then "PAPER" else cfg.TRADING_MODE⟩

/-- The Eastern-time view used by `is_valid_execution_time`:
`convert_to_eastern(current_time)` is modelled by taking the Eastern
wall clock directly, and `market_open` is `is_market_open(et_time)`'s
calendar verdict. -/
structure ETTime where
  hour : ℕ
  minute : ℕ
  market_open : Bool
deriving DecidableEq

/-- `is_valid_execution_time`: market open AND (≥ 15:00 ET, or the
2:45-PM late-day window when `ALLOW_LATE_DAY_ENTRY`). -/
def isValidExecutionTime (cfg : Config) (t : ETTime) : Bool :=
  if ¬t.market_open then false
  else if 15 ≤ t.hour then true
  else if t.hour = 14 ∧ 45 ≤ t.minute ∧ cfg.ALLOW_LATE_DAY_ENTRY then true
  else false

/-- `_update_avg_execution_time`, called after the success counter was
incremented. -/
def updateAvgExecutionTime (m : ExecMetrics) (new_time : ℚ) : ExecMetrics :=
  if m.successful_trades = 1 then { m with avg_execution_time := new_time }
  else
    { m with avg_execution_time :=
        (m.avg_execution_time * ((m.successful_trades : ℚ) - 1) + new_time) /
          (m.successful_trades : ℚ) }

/-- `execute_trade(trade_signal, option_spread, position_size)`.
`t`/`now` are the wall clock at the call; `broker_result` abstracts the
`try` block around `_execute_paper_trade` / `_execute_live_trade`
(`Except.ok order_id`, or `Except.error msg` for a raised exception — the
pricing arithmetic inside those helpers affects neither the metrics nor
the status), and `execution_time` its measured duration. -/
def executeTrade (cfg : Config) (st : ExecState) (trade_signal : TradeSignal)
    (option_spread : OptionSpread) (position_size : ℤ) (t : ETTime) (now : ℚ)
    (broker_result : Except String String) (execution_time : ℚ) :
    ExecState × String × String :=
  if ¬isValidExecutionTime cfg t then
    let queued_trade : QueuedTrade := ⟨trade_signal, option_spread, position_size, now⟩
    ({ st with queued_trades := st.queued_trades ++ [queued_trade] },
      "QUEUED", "Trade queued for execution after 3PM ET")
  else
    match broker_result with
    | Except.ok order_id =>
      let m := st.metrics
      let m := { m with
        total_trades := m.total_trades + 1
        successful_trades := m.successful_trades + 1 }
      let m := updateAvgExecutionTime m execution_time
      ({ st with metrics := m }, "EXECUTED", order_id)
    | Except.error error_msg =>
      let m := st.metrics
      let m := { m with
        total_trades := m.total_trades + 1
        failed_trades := m.failed_trades + 1 }
      ({ st with metrics := m }, "FAILED", error_msg)

/-- The dictionary returned by `get_metrics`. -/
structure MetricsView where
  total_trades : ℕ
  successful_trades : ℕ
  failed_trades : ℕ
  avg_execution_time : ℚ
  success_rate : ℚ
  queued_trades : ℕ
deriving DecidableEq

/-- `get_metrics`. -/
def getMetrics (st : ExecState) : MetricsView :=
  { total_trades := st.metrics.total_trades
    successful_trades := st.metrics.successful_trades
    failed_trades := st.metrics.failed_trades
    avg_execution_time := st.metrics.avg_execution_time
    success_rate :=
      if 0 < st.metrics.total_trades then
        (st.metrics.successful_trades : ℚ) / (st.metrics.total_trades : ℚ)
      else 0
    queued_trades := st.queued_trades.length }

/-- The per-call inputs of one `execute_trade` invocation (clock and
abstracted broker outcome included). -/
structure ExecCall where
  signal : TradeSignal
  spread : OptionSpread
  size : ℤ
  t : ETTime
  now : ℚ
  broker_result : Except String String
  execution_time : ℚ

/-- A sequence of `execute_trade` calls threaded through the state. -/
def runTrades (cfg : Config) (st : ExecState) (calls : List ExecCall) :
    ExecState :=
  calls.foldl
    (fun s c =>
      (executeTrade cfg s c.signal c.spread c.size c.t c.now c.broker_result
        c.execution_time).1) st

/-! ### `ErrorHandler` (`src/python/src/utils/error_handler.py`) -/

/-- One `circuit_breakers[component]` entry. -/
structure Breaker where
  tripped : Bool
  trip_time : Option ℚ
  reset_time : Option ℚ
deriving DecidableEq

/-- The `config` dictionary reads of `ErrorHandler`, with the source's
`.get` defaults as field defaults (times in minutes). -/
structure EHConfig where
  ERROR_THRESHOLD : ℕ := 3
  CIRCUIT_BREAKER_THRESHOLD : ℕ := 5
  CIRCUIT_BREAKER_MINUTES : ℚ := 30
  MAX_RECOVERY_ATTEMPTS : ℕ := 3
deriving DecidableEq

/-- The mutable state of an `ErrorHandler`.  Keys of `error_counts`,
`recovery_attempts` and `last_errors` are the `f"{component}:{error_type}"`
strings of the source.  (`component_errors` is initialized by the source
but never read or written afterwards and is omitted.) -/
structure EHState where
  error_counts : List (String × ℕ)
  recovery_attempts : List (String × ℕ)
  circuit_breakers : List (String × Breaker)
  last_errors : List (String × ℚ)
deriving DecidableEq

/-- The five guarded components of `ErrorHandler.__init__`. -/
def criticalComponents : List String :=
  ["IBKR_API", "DATA_PROVIDER", "OPTION_SELECTOR", "TRADE_EXECUTOR",
    "RISK_MANAGER"]

/-- `ErrorHandler.__init__`: untripped breakers for the five critical
components, empty counters. -/
def initEHState : EHState :=
  ⟨[], [], criticalComponents.map (fun c => (c, ⟨false, none, none⟩)), []⟩

/-- `is_critical_error`. -/
def isCriticalError (error_type : String) : Bool :=
  error_type ∈ ["CONNECTION_ERROR", "AUTHENTICATION_ERROR",
    "ORDER_EXECUTION_ERROR", "DATA_INTEGRITY_ERROR", "ACCOUNT_ERROR",
    "POSITION_ERROR", "MARKET_ACCESS_ERROR"]

/-- `_trip_circuit_breaker(component)`: a no-op for an unguarded
component, otherwise trip with `reset_time = now + CIRCUIT_BREAKER_MINUTES`
(minutes; models `now + timedelta(minutes=...)`). -/
def tripCircuitBreaker (cfg : EHConfig) (st : EHState) (component : String)
    (now : ℚ) : EHState :=
  match List.lookup component st.circuit_breakers with
  | none => st
  | some _ =>
    { st with circuit_breakers := (setKey st.circuit_breakers component
        ⟨true, some now, some (now + cfg.CIRCUIT_BREAKER_MINUTES)⟩) }

/-- `attempt_recovery(component, error_type, context)`: bump the attempt
counter, then dispatch to the component-specific strategy.  `recover`
abstracts that dispatch (`_recover_ibkr_api` … `_generic_recovery`), whose
outcomes depend on the runtime `context` dictionary and on real sleeping
and are outside the claims. -/
def attemptRecovery (recover : String → String → Bool × String)
    (st : EHState) (component error_type : String) : EHState × Bool × String :=
  let error_key := component ++ ":" ++ error_type
  let st := { st with recovery_attempts := (setKey st.recovery_attempts error_key
      (lookupD st.recovery_attempts error_key 0 + 1)) }
  (st, recover component error_type)

/-- `handle_error(component, error_type, error_msg, context)`: count the
error, short-circuit on a tripped breaker, alert/trip on critical errors
past the threshold, else try recovery while attempts remain.  Logging and
alerting are sinks; `error_msg` does not influence state or result. -/
def handleError (recover : String → String → Bool × String) (cfg : EHConfig)
    (st : EHState) (component error_type : String) (now : ℚ) :
    EHState × Bool × String :=
  let error_key := component ++ ":" ++ error_type
  let st := { st with
    error_counts := setKey st.error_counts error_key
      (lookupD st.error_counts error_key 0 + 1)
    last_errors := setKey st.last_errors error_key now }
  let trippedNow :=
    match List.lookup component st.circuit_breakers with
    | some breaker => breaker.tripped
    | none => false
  if trippedNow then (st, false, "Circuit breaker active")
  else
    let cnt := lookupD st.error_counts error_key 0
    if (isCriticalError error_type ∨ cfg.ERROR_THRESHOLD ≤ cnt) ∧
        (isCriticalError error_type ∧ cfg.CIRCUIT_BREAKER_THRESHOLD ≤ cnt) then
      (tripCircuitBreaker cfg st component now, false, "Circuit breaker tripped")
    else if lookupD st.recovery_attempts error_key 0 < cfg.MAX_RECOVERY_ATTEMPTS
    then
      attemptRecovery recover st component error_type
    else
      (st, false, "Max recovery attempts reached (" ++
        toString cfg.MAX_RECOVERY_ATTEMPTS ++ ")")

/-- Whether a breaker is due for its lazy reset: tripped and
`now >= reset_time`.  (The source compares `now >= breaker["reset_time"]`
only for tripped breakers, whose `reset_time` was always set by
`_trip_circuit_breaker`; a tripped breaker with no reset time would raise
in Python and is treated as never due here.) -/
def breakerDue (b : Breaker) (now : ℚ) : Bool :=
  b.tripped && (match b.reset_time with
    | some r => decide (r ≤ now)
    | none => false)

/-- `check_circuit_breakers()`: reset every breaker whose timeout expired
and return the names of the components reset. -/
def checkCircuitBreakers (st : EHState) (now : ℚ) : EHState × List String :=
  let breakers := st.circuit_breakers.map
    (fun p => if breakerDue p.2 now then (p.1, (⟨false, none, none⟩ : Breaker)) else p)
  let reset_components :=
    (st.circuit_breakers.filter (fun p => breakerDue p.2 now)).map (fun p => p.1)
  ({ st with circuit_breakers := breakers }, reset_components)

/-- `can_use_component(component)`: `True` for unguarded components, else
the negation of the stored `tripped` flag (no reset-time check here). -/
def canUseComponent (st : EHState) (component : String) : Bool :=
  match List.lookup component st.circuit_breakers with
  | none => true
  | some breaker => !breaker.tripped

/-! ### Concrete instances used by scenario theorems and witnesses -/

/-- `OptionSpreadFilter` built over an empty options-config dictionary:
every parameter takes its `config.get` default. -/
def defaultFilterConfig : FilterConfig := {}

/-- Scenario B candidate: DTE 35, |delta| 0.40, cost $300, reward:risk
1.5, tight quotes, mild greeks, PoP 70%, width 5 vs expected move 4 —
passing every filter except open interest 800 on both legs. -/
def scenarioBSpread : FilterSpread :=
  { dte := 35
    atr := 2
    delta := 2/5
    cost := 3
    reward_risk := 3/2
    leg1_open_interest := 800
    leg2_open_interest := 800
    leg1_bid := 199/100
    leg1_ask := 2
    leg2_bid := 199/100
    leg2_ask := 2
    theta := 1/100
    vega := 1/10
    gamma := 1/10
    probability_of_profit := 7/10
    leg1_strike := 100
    leg2_strike := 105 }

/-- Scenario B candidate with liquid legs (open interest 1000). -/
def scenarioBLiquid : FilterSpread :=
  { scenarioBSpread with leg1_open_interest := 1000, leg2_open_interest := 1000 }

/-- Underlying context for Scenario B: IV rank 50%, no skew constraint
pressure, expected move 4, no upcoming events. -/
def scenarioBUnderlying : FilterUnderlying :=
  { iv_rank := 1/2
    call_put_skew := 0
    expected_move := 4
    days_to_earnings := none
    days_to_ex_div := none }

/-- A plain configuration: 2% risk per trade, at most 5 contracts and 5
positions, 3 daily trades, 5% portfolio heat, 5% / 10% sector / industry
exposure caps, 70% directional bias, $1000 minimum buying power. -/
def demoConfig : Config :=
  { RISK_PER_TRADE := 1/50
    MAX_CONTRACTS_PER_TRADE := 5
    MAX_DAILY_TRADES := 3
    MAX_POSITIONS := 5
    MAX_PORTFOLIO_HEAT := 5
    MAX_SECTOR_EXPOSURE := 1/20
    MAX_INDUSTRY_EXPOSURE := 1/10
    MAX_DIRECTIONAL_BIAS := 7/10
    MIN_BUYING_POWER := 1000 }

/-- A concrete call contract. -/
def demoLeg : OptionContract :=
  { symbol := "AAPL C100"
    underlying := "AAPL"
    option_type := "call"
    strike := 100
    expiration := 30
    bid := 2
    ask := 21/10
    last := 2
    volume := 100
    open_interest := 1500
    implied_volatility := 1/4
    delta := 1/2
    gamma := 1/20
    theta := -(1/50)
    vega := 1/10
    rho := 1/100 }

/-- The adjacent higher-strike call. -/
def demoLeg2 : OptionContract :=
  { demoLeg with strike := 105, bid := 1, ask := 11/10, delta := 3/10 }

/-- A spread with per-contract cost $1. -/
def demoSpread : OptionSpread :=
  mkOptionSpread "AAPL" 30 "BULL_CALL" demoLeg demoLeg2 1 4 1 (1/5) 0

/-- A spread with per-contract cost $100 (max loss $100, max profit $150). -/
def demoSpread100 : OptionSpread :=
  mkOptionSpread "AAPL" 30 "BULL_CALL" demoLeg demoLeg2 100 150 100 (1/5) 0

/-- A broker whose fundamentals place AAPL in Technology / Consumer
Electronics, with a $100000 account. -/
def demoBroker : BrokerAPI :=
  { net_liquidation := 100000
    available_funds := 50000
    sectorOf := fun s => if s = "AAPL" then some "Technology" else none
    industryOf := fun s => if s = "AAPL" then some "Consumer Electronics" else none }

/-- Environment with the demo broker attached. -/
def demoEnvBroker : Env := ⟨some demoBroker⟩

/-- Environment without a broker. -/
def demoEnvNone : Env := ⟨none⟩

/-- A LONG signal for AAPL. -/
def demoSignal : TradeSignal := ⟨"AAPL", "LONG"⟩

/-- One recorded daily trade. -/
def demoTradeRecord : TradeRecord :=
  ⟨"AAPL", "LONG", 1, "BULL_CALL", 30, 1, 0⟩

/-- A risk state whose daily-trade list for 2026-10-12 already holds
three recorded trades. -/
def demoRiskStateMaxed : RiskState :=
  { daily_trades := [("2026-10-12", [demoTradeRecord, demoTradeRecord, demoTradeRecord])]
    active_positions := []
    sector_exposure := []
    industry_exposure := [] }

/-- An open LONG position at entry price 2 with no trailing extremes yet. -/
def demoPosition : Position :=
  { direction := "LONG"
    contracts := 1
    spread := demoSpread
    entry_date := "2026-10-12"
    entry_price := 2
    stop_price := 1
    target_price := 3 }

/-- The symmetric SHORT position. -/
def demoPositionShort : Position := { demoPosition with direction := "SHORT" }

/-- An error-handler state whose IBKR_API breaker is tripped with
`trip_time = 0` and `reset_time = 10`. -/
def trippedEHState : EHState :=
  { error_counts := []
    recovery_attempts := []
    circuit_breakers := [("IBKR_API", ⟨true, some 0, some 10⟩)]
    last_errors := [] }

/-- An error-handler state that has already counted four
IBKR_API connection errors, breaker untripped. -/
def preTripEHState : EHState :=
  { initEHState with error_counts := [("IBKR_API:CONNECTION_ERROR", 4)] }

/-- A recovery oracle that always reports success. -/
def demoRecover : String → String → Bool × String := fun _ _ => (true, "ok")

/-- Noon Eastern with the market open: before the 15:00 cutoff and
outside the 2:45 PM late-day window. -/
def demoETNoon : ETTime := ⟨12, 0, true⟩

/-! ## Theorems -/

/-! ### Dictionary lemmas -/

theorem lookup_setKey_self {β : Type} (m : List (String × β)) (k : String)
    (v : β) : List.lookup k (setKey m k v) = some v := by
  induction m with
  | nil => simp [setKey, List.lookup]
  | cons hd tl ih =>
    obtain ⟨k', v'⟩ := hd
    by_cases h : k' = k
    · subst h
      simp [setKey, List.lookup]
    · have hb : (k == k') = false := beq_false_of_ne (Ne.symm h)
      simp [setKey, h, List.lookup, ih, hb]

theorem lookupD_setKey_self {β : Type} (m : List (String × β)) (k : String)
    (v d : β) : lookupD (setKey m k v) k d = v := by
  simp [lookupD, lookup_setKey_self]

theorem mem_foldl_append {α β : Type} (f : β → List α) (l : List β)
    (acc : List α) (a : α) :
    a ∈ l.foldl (fun acc p => acc ++ f p) acc ↔
      a ∈ acc ∨ ∃ p ∈ l, a ∈ f p := by
  induction l generalizing acc with
  | nil => simp
  | cons hd tl ih =>
    simp only [List.foldl_cons, ih, List.mem_append, List.mem_cons]
    constructor
    · rintro (⟨h | h⟩ | ⟨p, hp, ha⟩)
      · exact Or.inl h
      · exact Or.inr ⟨hd, Or.inl rfl, h⟩
      · exact Or.inr ⟨p, Or.inr hp, ha⟩
    · rintro (h | ⟨p, hp | hp, ha⟩)
      · exact Or.inl (Or.inl h)
      · exact Or.inl (Or.inr (hp ▸ ha))
      · exact Or.inr ⟨p, hp, ha⟩

/-! ### C10 — `close_position` on an unknown symbol is a no-op -/

/-- C10: calling `close_position` with a symbol that has no entry in
`active_positions` leaves the whole risk state — `active_positions`,
`sector_exposure`, `industry_exposure` and `daily_trades` — unchanged. -/
theorem closePosition_unknown_symbol_noop (env : Env) (st : RiskState)
    (symbol : String)
    (h : List.lookup symbol st.active_positions = none) :
    closePosition env st symbol = st := by
  unfold closePosition
  rw [h]

/-- Witness for C10 at a concrete state holding one unrelated position. -/
theorem closePosition_unknown_symbol_noop_witness :
    closePosition ⟨none⟩ initRiskState "MSFT" = initRiskState :=
  closePosition_unknown_symbol_noop ⟨none⟩ initRiskState "MSFT" (by rfl)

/-! ### C7 — spread filtering is a conjunction; Scenario B -/

theorem scenarioB_fails_filters :
    passesAllFilters defaultFilterConfig scenarioBSpread scenarioBUnderlying =
      false := by
  norm_num [passesAllFilters, checkBasicCriteria, checkLiquidity, checkIvRegime,
    checkGreekRisks, checkProbabilityMetrics, checkCalendarEvents, eventWithin,
    pyAbs, scenarioBSpread, scenarioBUnderlying, defaultFilterConfig]

theorem scenarioB_liquid_passes :
    passesAllFilters defaultFilterConfig scenarioBLiquid scenarioBUnderlying =
      true := by
  norm_num [passesAllFilters, checkBasicCriteria, checkLiquidity, checkIvRegime,
    checkGreekRisks, checkProbabilityMetrics, checkCalendarEvents, eventWithin,
    pyAbs, scenarioBLiquid, scenarioBSpread, scenarioBUnderlying,
    defaultFilterConfig]

/-- C7: `_passes_all_filters` is the conjunction of the six independent
predicates; membership in `filter_spreads`' output is exactly membership
in the input plus passing all filters (so failing any one predicate
excludes a candidate); and the Scenario B spread — open interest 800 on
both legs against `min_open_interest = 1000`, every other criterion
satisfied (its liquid twin is kept) — yields an empty result list. -/
theorem filterSpreads_conjunction_and_scenarioB :
    (∀ (cfg : FilterConfig) (s : FilterSpread) (u : FilterUnderlying),
      passesAllFilters cfg s u =
        (checkBasicCriteria cfg s && checkLiquidity cfg s &&
          checkIvRegime cfg s u && checkGreekRisks cfg s &&
          checkProbabilityMetrics cfg s u && checkCalendarEvents cfg u)) ∧
    (∀ (cfg : FilterConfig) (spreads : List FilterSpread)
      (u : FilterUnderlying) (s : FilterSpread),
      s ∈ filterSpreads cfg spreads u ↔
        s ∈ spreads ∧ passesAllFilters cfg s u = true) ∧
    checkLiquidity defaultFilterConfig scenarioBSpread = false ∧
    filterSpreads defaultFilterConfig [scenarioBSpread] scenarioBUnderlying = [] ∧
    filterSpreads defaultFilterConfig [scenarioBLiquid] scenarioBUnderlying =
      [scenarioBLiquid] := by
  refine ⟨?_, ?_, ?_, ?_, ?_⟩
  · intro cfg s u
    unfold passesAllFilters
    cases h1 : checkBasicCriteria cfg s <;>
      cases h2 : checkLiquidity cfg s <;>
        cases h3 : checkIvRegime cfg s u <;>
          cases h4 : checkGreekRisks cfg s <;>
            cases h5 : checkProbabilityMetrics cfg s u <;>
              cases h6 : checkCalendarEvents cfg u <;> simp
  · intro cfg spreads u s
    simp [filterSpreads, List.mem_filter]
  · decide
  · simp [filterSpreads, scenarioB_fails_filters]
  · simp [filterSpreads, scenarioB_liquid_passes]

/-! ### C9 — execution metrics bookkeeping -/

theorem updateAvgExecutionTime_counters (m : ExecMetrics) (etime : ℚ) :
    (updateAvgExecutionTime m etime).total_trades = m.total_trades ∧
    (updateAvgExecutionTime m etime).successful_trades = m.successful_trades ∧
    (updateAvgExecutionTime m etime).failed_trades = m.failed_trades := by
  unfold updateAvgExecutionTime
  split <;> exact ⟨rfl, rfl, rfl⟩

theorem executeTrade_counters_consistent (cfg : Config) (st : ExecState)
    (sig : TradeSignal) (sp : OptionSpread) (sz : ℤ) (t : ETTime) (now : ℚ)
    (res : Except String String) (etime : ℚ)
    (h : st.metrics.total_trades =
      st.metrics.successful_trades + st.metrics.failed_trades) :
    (executeTrade cfg st sig sp sz t now res etime).1.metrics.total_trades =
      (executeTrade cfg st sig sp sz t now res etime).1.metrics.successful_trades +
        (executeTrade cfg st sig sp sz t now res etime).1.metrics.failed_trades := by
  unfold executeTrade
  split
  · exact h
  · split
    · simp [(updateAvgExecutionTime_counters _ etime).1,
        (updateAvgExecutionTime_counters _ etime).2.1,
        (updateAvgExecutionTime_counters _ etime).2.2]
      omega
    · simp
      omega

theorem runTrades_counters_consistent (cfg : Config) (calls : List ExecCall) :
    ∀ st : ExecState,
    st.metrics.total_trades =
      st.metrics.successful_trades + st.metrics.failed_trades →
    (runTrades cfg st calls).metrics.total_trades =
      (runTrades cfg st calls).metrics.successful_trades +
        (runTrades cfg st calls).metrics.failed_trades := by
  induction calls with
  | nil => intro st h; exact h
  | cons c rest ih =>
    intro st h
    exact ih _ (executeTrade_counters_consistent cfg st c.signal c.spread c.size
      c.t c.now c.broker_result c.execution_time h)

/-- C9: after any sequence of `execute_trade` calls,
`total_trades = successful_trades + failed_trades`; a call outside the
valid execution window (outcome QUEUED) leaves the metrics — all three
counters and the running average — unchanged; and `get_metrics` reports
`success_rate = successful_trades / total_trades` when `total_trades > 0`
and 0 otherwise. -/
theorem tradeExecutor_metrics_invariant :
    (∀ (cfg : Config) (calls : List ExecCall),
      (runTrades cfg (initExecState cfg) calls).metrics.total_trades =
        (runTrades cfg (initExecState cfg) calls).metrics.successful_trades +
          (runTrades cfg (initExecState cfg) calls).metrics.failed_trades) ∧
    (∀ (cfg : Config) (st : ExecState) (sig : TradeSignal) (sp : OptionSpread)
      (sz : ℤ) (t : ETTime) (now : ℚ) (res : Except String String) (etime : ℚ),
      isValidExecutionTime cfg t = false →
      (executeTrade cfg st sig sp sz t now res etime).1.metrics = st.metrics ∧
      (executeTrade cfg st sig sp sz t now res etime).2.1 = "QUEUED") ∧
    (∀ st : ExecState,
      (getMetrics st).success_rate =
        if 0 < st.metrics.total_trades then
          (st.metrics.successful_trades : ℚ) / (st.metrics.total_trades : ℚ)
        else 0) := by
  refine ⟨?_, ?_, ?_⟩
  · intro cfg calls
    exact runTrades_counters_consistent cfg calls _ rfl
  · intro cfg st sig sp sz t now res etime hv
    unfold executeTrade
    rw [hv]
    exact ⟨rfl, rfl⟩
  · intro st
    rfl

/-- Witness for C9 at a queued (noon, pre-cutoff) call on a fresh
executor. -/
theorem tradeExecutor_metrics_invariant_witness :
    isValidExecutionTime demoConfig demoETNoon = false ∧
    (executeTrade demoConfig (initExecState demoConfig) demoSignal demoSpread 1
      demoETNoon 0 (Except.ok "PAPER-1") 1).1.metrics =
      (initExecState demoConfig).metrics ∧
    (executeTrade demoConfig (initExecState demoConfig) demoSignal demoSpread 1
      demoETNoon 0 (Except.ok "PAPER-1") 1).2.1 = "QUEUED" :=
  ⟨by decide,
    (tradeExecutor_metrics_invariant.2.1 demoConfig (initExecState demoConfig)
      demoSignal demoSpread 1 demoETNoon 0 (Except.ok "PAPER-1") 1 (by decide)).1,
    (tradeExecutor_metrics_invariant.2.1 demoConfig (initExecState demoConfig)
      demoSignal demoSpread 1 demoETNoon 0 (Except.ok "PAPER-1") 1 (by decide)).2⟩

/-! ### C6 — trailing-stop monotonicity -/

theorem checkTrailingStop_fst_long (cfg : Config) (p : Position) (price : ℚ)
    (hd : p.direction = "LONG") :
    (checkTrailingStop cfg p price).1 =
      if price > highestRef p then { p with highest_price := some price }
      else p := by
  simp only [checkTrailingStop]
  rw [if_pos hd]
  repeat' split
  all_goals rfl

theorem checkTrailingStop_fst_short (cfg : Config) (p : Position) (price : ℚ)
    (hd : p.direction = "SHORT") :
    (checkTrailingStop cfg p price).1 =
      if price < lowestRef p then { p with lowest_price := some price }
      else p := by
  simp only [checkTrailingStop]
  rw [if_neg (by rw [hd]; decide : ¬p.direction = "LONG")]
  repeat' split
  all_goals rfl

theorem highestRef_step_le (cfg : Config) (p : Position) (price : ℚ)
    (hd : p.direction = "LONG") :
    highestRef p ≤ highestRef (checkTrailingStop cfg p price).1 := by
  rw [checkTrailingStop_fst_long cfg p price hd]
  split
  · next hgt =>
    simp only [highestRef] at hgt ⊢
    simp only [Option.getD_some]
    exact le_of_lt hgt
  · exact le_refl _

theorem lowestRef_step_le (cfg : Config) (p : Position) (price : ℚ)
    (hd : p.direction = "SHORT") :
    lowestRef (checkTrailingStop cfg p price).1 ≤ lowestRef p := by
  rw [checkTrailingStop_fst_short cfg p price hd]
  split
  · next hlt =>
    simp only [lowestRef] at hlt ⊢
    simp only [Option.getD_some]
    exact le_of_lt hlt
  · exact le_refl _

theorem checkTrailingStop_direction (cfg : Config) (p : Position) (price : ℚ) :
    ((checkTrailingStop cfg p price).1).direction = p.direction := by
  simp only [checkTrailingStop]
  repeat' split
  all_goals rfl

theorem highestRef_runTrailing_le (cfg : Config) (prices : List ℚ) :
    ∀ p : Position, p.direction = "LONG" →
    highestRef p ≤ highestRef (runTrailing cfg p prices) := by
  induction prices with
  | nil => intro p _; exact le_refl _
  | cons price rest ih =>
    intro p hd
    have hd' : ((checkTrailingStop cfg p price).1).direction = "LONG" := by
      rw [checkTrailingStop_direction]; exact hd
    exact le_trans (highestRef_step_le cfg p price hd) (ih _ hd')

theorem lowestRef_runTrailing_le (cfg : Config) (prices : List ℚ) :
    ∀ p : Position, p.direction = "SHORT" →
    lowestRef (runTrailing cfg p prices) ≤ lowestRef p := by
  induction prices with
  | nil => intro p _; exact le_refl _
  | cons price rest ih =>
    intro p hd
    have hd' : ((checkTrailingStop cfg p price).1).direction = "SHORT" := by
      rw [checkTrailingStop_direction]; exact hd
    exact le_trans (ih _ hd') (lowestRef_step_le cfg p price hd)

theorem highestRef_updateExits_le (cfg : Config) (p : Position) (price : ℚ)
    (a : Option ℚ) (hd : p.direction = "LONG") :
    highestRef p ≤ highestRef (updateExitsForPosition cfg p price a) := by
  simp only [updateExitsForPosition]
  rw [if_pos hd]
  cases a <;> repeat' split
  all_goals simp_all [highestRef]
  all_goals linarith

/-- C6: for a LONG position, one trailing-stop observation never lowers
the stored `highest_price` (read with its `entry_price` default), so it
is non-decreasing across any sequence of observations, and — for a trail
percentage ≤ 1 — the trailing stop level `highest · (1 - trail_pct)` is
non-decreasing too; symmetrically, `lowest_price` of a SHORT position is
non-increasing (per step and across sequences); the
`update_exits_for_position` path is monotone in the same way. -/
theorem trailingStop_monotonic :
    (∀ (cfg : Config) (p : Position) (price : ℚ), p.direction = "LONG" →
      highestRef p ≤ highestRef (checkTrailingStop cfg p price).1) ∧
    (∀ (cfg : Config) (p : Position) (prices : List ℚ), p.direction = "LONG" →
      highestRef p ≤ highestRef (runTrailing cfg p prices)) ∧
    (∀ (cfg : Config) (p : Position) (price : ℚ), p.direction = "LONG" →
      cfg.TRAILING_STOP_PERCENTAGE ≤ 1 →
      highestRef p * (1 - cfg.TRAILING_STOP_PERCENTAGE) ≤
        highestRef (checkTrailingStop cfg p price).1 *
          (1 - cfg.TRAILING_STOP_PERCENTAGE)) ∧
    (∀ (cfg : Config) (p : Position) (price : ℚ), p.direction = "SHORT" →
      lowestRef (checkTrailingStop cfg p price).1 ≤ lowestRef p) ∧
    (∀ (cfg : Config) (p : Position) (prices : List ℚ), p.direction = "SHORT" →
      lowestRef (runTrailing cfg p prices) ≤ lowestRef p) ∧
    (∀ (cfg : Config) (p : Position) (price : ℚ) (a : Option ℚ),
      p.direction = "LONG" →
      highestRef p ≤ highestRef (updateExitsForPosition cfg p price a)) := by
  refine ⟨highestRef_step_le, ?_, ?_, lowestRef_step_le, ?_, highestRef_updateExits_le⟩
  · intro cfg p prices hd
    exact highestRef_runTrailing_le cfg prices p hd
  · intro cfg p price hd ht
    have h1 : (0 : ℚ) ≤ 1 - cfg.TRAILING_STOP_PERCENTAGE := by linarith
    exact mul_le_mul_of_nonneg_right (highestRef_step_le cfg p price hd) h1
  · intro cfg p prices hd
    exact lowestRef_runTrailing_le cfg prices p hd

/-- Witness for C6: a LONG step at price 3 from entry 2 and a SHORT step
at price 1, with the default 20% trail. -/
theorem trailingStop_monotonic_witness :
    highestRef demoPosition ≤
      highestRef (checkTrailingStop demoConfig demoPosition 3).1 ∧
    highestRef demoPosition * (1 - demoConfig.TRAILING_STOP_PERCENTAGE) ≤
      highestRef (checkTrailingStop demoConfig demoPosition 3).1 *
        (1 - demoConfig.TRAILING_STOP_PERCENTAGE) ∧
    lowestRef (checkTrailingStop demoConfig demoPositionShort 1).1 ≤
      lowestRef demoPositionShort ∧
    highestRef demoPosition ≤
      highestRef (runTrailing demoConfig demoPosition [3, 5/2, 4]) :=
  ⟨trailingStop_monotonic.1 demoConfig demoPosition 3 rfl,
    trailingStop_monotonic.2.2.1 demoConfig demoPosition 3 rfl (by norm_num [demoConfig]),
    trailingStop_monotonic.2.2.2.1 demoConfig demoPositionShort 1 rfl,
    trailingStop_monotonic.2.1 demoConfig demoPosition [3, 5/2, 4] rfl⟩

/-! ### C1 — position sizing is shadowed by a second definition -/

/-- C1 (code bug): the class defines `calculate_position_size` twice; the
second definition silently replaces the first, so the object's
position-sizing method — called by `trader.py` as
`calculate_position_size(account_value, option_spread.cost)` — treats the
account value as the unused `symbol` string, sizes off its own
broker-or-default account value with no `MAX_CONTRACTS_PER_TRADE` clamp,
and never returns 0.  At account value 100000, spread cost 200, 2% risk,
`MAX_CONTRACTS_PER_TRADE = 5`: the effective method returns 10 where the
claimed formula (satisfied by the shadowed first definition) gives 5. -/
theorem calculate_position_size_shadowing_divergence :
    calculate_position_size demoEnvNone demoConfig "100000.0" 200 = 10 ∧
    min demoConfig.MAX_CONTRACTS_PER_TRADE
      ⌊(100000 : ℚ) * demoConfig.RISK_PER_TRADE / 200⌋ = 5 ∧
    calculate_position_size_first_def demoConfig 100000 200 = 5 := by
  refine ⟨?_, ?_, ?_⟩
  · show max 1 _ = 10
    norm_num [calculate_position_size, pyInt, demoConfig, demoEnvNone]
  · norm_num [demoConfig]
  · norm_num [calculate_position_size_first_def, demoConfig]

/-! ### C8 — reward:risk ratio invariant of constructed spreads -/

theorem mkOptionSpread_scaled_ratio (sym : String) (exp : ℤ) (ty : String)
    (ll sl : OptionContract) (cost mp δ : ℚ) (h : 0 < cost * 100) :
    (mkOptionSpread sym exp ty ll sl (cost * 100) (mp * 100) (cost * 100) δ
      (if cost > 0 then mp / cost else 0)).reward_risk_ratio =
      (mp * 100) / (cost * 100) := by
  have hc : 0 < cost := by linarith
  have key : (mp * 100) / (cost * 100) = mp / cost := by
    rw [mul_comm mp, mul_comm cost, mul_div_mul_left _ _ (by norm_num : (100:ℚ) ≠ 0)]
  unfold mkOptionSpread
  simp only [hc, if_pos]
  split
  · rfl
  · exact key.symm

theorem callSpreads_ratio (chains : List (ℤ × List OptionContract)) (price : ℚ)
    (s : OptionSpread) (hs : s ∈ createCallVerticalSpreads chains price)
    (hml : 0 < s.max_loss) :
    s.reward_risk_ratio = s.max_profit / s.max_loss := by
  rcases (mem_foldl_append _ chains [] s).1 hs with h | ⟨p, _, hmem⟩
  · simp at h
  · simp only [callSpreadsForChain] at hmem
    split at hmem
    · simp at hmem
    · rcases List.mem_filterMap.1 hmem with ⟨pair, _, hmk⟩
      simp only [mkCallSpread?] at hmk
      split at hmk
      · simp at hmk
      · rw [Option.some_inj] at hmk
        subst hmk
        rw [mkOptionSpread_scaled_ratio _ _ _ _ _ _ _ _ hml]
        simp only [mkOptionSpread]

theorem putSpreads_ratio (chains : List (ℤ × List OptionContract)) (price : ℚ)
    (s : OptionSpread) (hs : s ∈ createPutVerticalSpreads chains price)
    (hml : 0 < s.max_loss) :
    s.reward_risk_ratio = s.max_profit / s.max_loss := by
  rcases (mem_foldl_append _ chains [] s).1 hs with h | ⟨p, _, hmem⟩
  · simp at h
  · simp only [putSpreadsForChain] at hmem
    split at hmem
    · simp at hmem
    · rcases List.mem_filterMap.1 hmem with ⟨pair, _, hmk⟩
      simp only [mkPutSpread?] at hmk
      split at hmk
      · simp at hmk
      · rw [Option.some_inj] at hmk
        subst hmk
        rw [mkOptionSpread_scaled_ratio _ _ _ _ _ _ _ _ hml]
        simp only [mkOptionSpread]

/-- C8 (amended): a constructed `OptionSpread` with the defaulted (0)
ratio argument and positive `max_loss` satisfies
`reward_risk_ratio = max_profit / max_loss`, and every spread produced by
`create_call_vertical_spreads` / `create_put_vertical_spreads` with
positive `max_loss` satisfies the equation (the ratio those constructors
pass, computed from unscaled per-share values, agrees with the ratio of
the 100-scaled fields); an explicitly passed nonzero ratio, however, is
kept verbatim, so the equation is not universal (see the
counterexample). -/
theorem optionSpread_ratio_invariant :
    (∀ (sym : String) (exp : ℤ) (ty : String) (ll sl : OptionContract)
      (cost mp ml δ : ℚ), 0 < ml →
      (mkOptionSpread sym exp ty ll sl cost mp ml δ 0).reward_risk_ratio =
        mp / ml) ∧
    (∀ (chains : List (ℤ × List OptionContract)) (price : ℚ) (s : OptionSpread),
      s ∈ createCallVerticalSpreads chains price → 0 < s.max_loss →
      s.reward_risk_ratio = s.max_profit / s.max_loss) ∧
    (∀ (chains : List (ℤ × List OptionContract)) (price : ℚ) (s : OptionSpread),
      s ∈ createPutVerticalSpreads chains price → 0 < s.max_loss →
      s.reward_risk_ratio = s.max_profit / s.max_loss) := by
  refine ⟨?_, callSpreads_ratio, putSpreads_ratio⟩
  intro sym exp ty ll sl cost mp ml δ hml
  unfold mkOptionSpread
  simp [hml]

/-- Counterexample for C8 as stated: the dataclass keeps an explicitly
passed nonzero `reward_risk_ratio` (here 5) even though
`max_profit / max_loss = 2` and `max_loss = 1 > 0`. -/
theorem optionSpread_ratio_counterexample :
    (0 : ℚ) <
      (mkOptionSpread "X" 30 "BULL_CALL" demoLeg demoLeg2 1 2 1 0 5).max_loss ∧
    (mkOptionSpread "X" 30 "BULL_CALL" demoLeg demoLeg2 1 2 1 0 5).reward_risk_ratio ≠
      (mkOptionSpread "X" 30 "BULL_CALL" demoLeg demoLeg2 1 2 1 0 5).max_profit /
        (mkOptionSpread "X" 30 "BULL_CALL" demoLeg demoLeg2 1 2 1 0 5).max_loss := by
  norm_num [mkOptionSpread]

/-- Witness for C8 at a concrete constructed spread (cost 1, profit 4). -/
theorem optionSpread_ratio_invariant_witness :
    (0 : ℚ) < 1 ∧ demoSpread.reward_risk_ratio = 4 / 1 :=
  ⟨by norm_num,
    optionSpread_ratio_invariant.1 "AAPL" 30 "BULL_CALL" demoLeg demoLeg2 1 4 1
      (1/5) (by norm_num)⟩

/-! ### C2 — breaker reset is not lazy in `can_use_component` / `handle_error` -/

theorem lookup_mem {β : Type} {l : List (String × β)} {k : String} {v : β}
    (h : List.lookup k l = some v) : (k, v) ∈ l := by
  induction l with
  | nil => simp [List.lookup] at h
  | cons hd tl ih =>
    obtain ⟨k', v'⟩ := hd
    simp only [List.lookup] at h
    split at h
    · next heq =>
      rw [Option.some_inj] at h
      subst h
      exact List.mem_cons.2 (Or.inl (by rw [eq_of_beq heq]))
    · exact List.mem_cons.2 (Or.inr (ih h))

theorem lookup_resetMap (l : List (String × Breaker)) (comp : String) (now : ℚ) :
    List.lookup comp (l.map (fun p =>
        if breakerDue p.2 now then (p.1, (⟨false, none, none⟩ : Breaker)) else p)) =
      (List.lookup comp l).map (fun b =>
        if breakerDue b now then (⟨false, none, none⟩ : Breaker) else b) := by
  induction l with
  | nil => rfl
  | cons hd tl ih =>
    obtain ⟨k', v'⟩ := hd
    simp only [List.map_cons]
    cases hdue : breakerDue v' now
    · rw [if_neg (by decide : ¬((false : Bool) = true))]
      cases hb : comp == k'
      · simp only [List.lookup, hb, ih]
      · simp only [List.lookup, hb]
        simp [hdue]
    · rw [if_pos (rfl : (true : Bool) = true)]
      cases hb : comp == k'
      · simp only [List.lookup, hb, ih]
      · simp only [List.lookup, hb]
        simp [hdue]

/-- C2 (amended): neither `can_use_component` nor `handle_error` clears a
tripped breaker — the lazy reset lives in `check_circuit_breakers`: for
every component whose breaker is tripped with `reset_time = r`, running
`check_circuit_breakers` at any `now ≥ r` clears the flag (and reports
the component as reset), after which `can_use_component` returns True. -/
theorem circuitBreaker_reset_via_check (st : EHState) (comp : String)
    (br : Breaker) (r now : ℚ)
    (hl : List.lookup comp st.circuit_breakers = some br)
    (ht : br.tripped = true) (hr : br.reset_time = some r) (hn : r ≤ now) :
    canUseComponent (checkCircuitBreakers st now).1 comp = true ∧
    comp ∈ (checkCircuitBreakers st now).2 := by
  have hdue : breakerDue br now = true := by
    simp [breakerDue, ht, hr, hn]
  constructor
  · simp [canUseComponent, checkCircuitBreakers, lookup_resetMap, hl, hdue]
  · simp only [checkCircuitBreakers, List.mem_map]
    exact ⟨(comp, br), List.mem_filter.2 ⟨lookup_mem hl, hdue⟩, rfl⟩

/-- Witness for the amended C2: the tripped IBKR_API breaker with
`reset_time = 10` is cleared by `check_circuit_breakers` at `now = 20`. -/
theorem circuitBreaker_reset_via_check_witness :
    canUseComponent (checkCircuitBreakers trippedEHState 20).1 "IBKR_API" = true ∧
    "IBKR_API" ∈ (checkCircuitBreakers trippedEHState 20).2 :=
  circuitBreaker_reset_via_check trippedEHState "IBKR_API" ⟨true, some 0, some 10⟩
    10 20 (by decide) rfl rfl (by norm_num)

/-- Counterexample for C2 as stated: with the IBKR_API breaker tripped
and `reset_time = 10` already passed at `now = 20`, `can_use_component`
still returns False (it consults only the stored flag), and
`handle_error` at `now = 20` still short-circuits with "Circuit breaker
active" and leaves the flag set — no call-time lazy reset happens. -/
theorem canUseComponent_no_lazy_reset :
    ((10 : ℚ) ≤ 20) ∧
    canUseComponent trippedEHState "IBKR_API" = false ∧
    (handleError demoRecover {} trippedEHState "IBKR_API" "CONNECTION_ERROR" 20).2 =
      (false, "Circuit breaker active") ∧
    canUseComponent
      (handleError demoRecover {} trippedEHState "IBKR_API" "CONNECTION_ERROR" 20).1
      "IBKR_API" = false := by
  refine ⟨by norm_num, by decide, by decide, by decide⟩

/-! ### C3 — the 5th critical error trips the breaker; tripped ⇒ no recovery -/

/-- C3: with `CIRCUIT_BREAKER_THRESHOLD = 5`, a `handle_error` call for a
critical error kind whose (component, kind) counter already stands at 4 —
the 5th such call — trips the component's breaker (setting
`reset_time = now + CIRCUIT_BREAKER_MINUTES`) and returns
`(False, "Circuit breaker tripped")` without touching the recovery
counters; and every `handle_error` call while the component's breaker is
tripped returns `(False, "Circuit breaker active")` immediately, invoking
no recovery strategy (recovery counters untouched) and leaving the
breakers unchanged. -/
theorem handleError_critical_threshold_trips :
    (∀ (recover : String → String → Bool × String) (cfg : EHConfig)
      (st : EHState) (comp et : String) (br : Breaker) (now : ℚ),
      cfg.CIRCUIT_BREAKER_THRESHOLD = 5 →
      List.lookup comp st.circuit_breakers = some br →
      br.tripped = false →
      isCriticalError et = true →
      lookupD st.error_counts (comp ++ ":" ++ et) 0 = 4 →
      (handleError recover cfg st comp et now).2 =
        (false, "Circuit breaker tripped") ∧
      List.lookup comp (handleError recover cfg st comp et now).1.circuit_breakers =
        some ⟨true, some now, some (now + cfg.CIRCUIT_BREAKER_MINUTES)⟩ ∧
      (handleError recover cfg st comp et now).1.recovery_attempts =
        st.recovery_attempts) ∧
    (∀ (recover : String → String → Bool × String) (cfg : EHConfig)
      (st : EHState) (comp et : String) (br : Breaker) (now : ℚ),
      List.lookup comp st.circuit_breakers = some br →
      br.tripped = true →
      (handleError recover cfg st comp et now).2 =
        (false, "Circuit breaker active") ∧
      (handleError recover cfg st comp et now).1.recovery_attempts =
        st.recovery_attempts ∧
      (handleError recover cfg st comp et now).1.circuit_breakers =
        st.circuit_breakers) := by
  constructor
  · intro recover cfg st comp et br now hth hl htf hcrit hcnt
    have hkey : lookupD (setKey st.error_counts (comp ++ ":" ++ et)
        (lookupD st.error_counts (comp ++ ":" ++ et) 0 + 1)) (comp ++ ":" ++ et) 0 =
        5 := by
      rw [lookupD_setKey_self, hcnt]
    simp [handleError, hl, htf, hcrit, hkey, hth, tripCircuitBreaker,
      lookup_setKey_self]
  · intro recover cfg st comp et br now hl ht
    simp [handleError, hl, ht]

/-- Witness for C3: the 5th IBKR_API connection error (counter at 4)
trips the breaker at `now = 7` with the default 30-minute cooldown. -/
theorem handleError_critical_threshold_trips_witness :
    (handleError demoRecover {} preTripEHState "IBKR_API" "CONNECTION_ERROR" 7).2 =
      (false, "Circuit breaker tripped") ∧
    List.lookup "IBKR_API"
      (handleError demoRecover {} preTripEHState "IBKR_API" "CONNECTION_ERROR"
        7).1.circuit_breakers =
      some ⟨true, some 7, some (7 + ({} : EHConfig).CIRCUIT_BREAKER_MINUTES)⟩ ∧
    (handleError demoRecover {} preTripEHState "IBKR_API" "CONNECTION_ERROR"
      7).1.recovery_attempts = preTripEHState.recovery_attempts :=
  handleError_critical_threshold_trips.1 demoRecover {} preTripEHState "IBKR_API"
    "CONNECTION_ERROR" ⟨false, none, none⟩ 7 rfl (by decide) rfl (by decide)
    (by decide)

/-! ### C4 — admission check order; Scenario C -/

theorem firstSome_cons {α : Type} (o : Option α) (rest : List (Option α))
    (d : α) :
    (firstSome (o :: rest)).getD d =
      match o with
      | some r => r
      | none => (firstSome rest).getD d := by
  cases o <;> rfl

/-- C4: `can_enter_trade` is exactly the first-failure short-circuit of
the eight checks in the order daily-trade-count, active-position-count,
same-direction-position-in-symbol, portfolio-heat, sector-exposure,
industry-exposure, directional-bias, minimum-buying-power, defaulting to
`(True, "Trade allowed")`; in particular with `MAX_DAILY_TRADES = 3` and
three trades already recorded today it returns
`(False, "Maximum daily trades limit (3) reached")` whatever the rest of
the state. -/
theorem canEnterTrade_order_and_scenarioC :
    (∀ (cfg : Config) (env : Env) (st : RiskState) (today symbol direction :
      String) (cost_per_contract : ℚ),
      canEnterTrade cfg env st today symbol direction cost_per_contract =
        (firstSome [dailyTradesCheck cfg st today, positionsCheck cfg st,
          symbolConflictCheck st symbol direction, heatCheck cfg env st,
          sectorCheck cfg env st symbol cost_per_contract,
          industryCheck cfg env st symbol cost_per_contract,
          biasCheck cfg st direction,
          buyingPowerCheck cfg env]).getD (true, "Trade allowed")) ∧
    (∀ (cfg : Config) (env : Env) (st : RiskState) (today symbol direction :
      String) (cost_per_contract : ℚ),
      cfg.MAX_DAILY_TRADES = 3 →
      (lookupD st.daily_trades today []).length = 3 →
      canEnterTrade cfg env st today symbol direction cost_per_contract =
        (false, "Maximum daily trades limit (3) reached")) := by
  constructor
  · intro cfg env st today symbol direction cost_per_contract
    simp only [canEnterTrade]
    rw [firstSome_cons]
    by_cases h1 : cfg.MAX_DAILY_TRADES ≤ (lookupD st.daily_trades today []).length
    · simp [dailyTradesCheck, h1]
    · rw [if_neg h1]
      simp only [dailyTradesCheck, if_neg h1]
      rw [firstSome_cons]
      by_cases h2 : cfg.MAX_POSITIONS ≤ st.active_positions.length
      · simp [positionsCheck, h2]
      · rw [if_neg h2]
        simp only [positionsCheck, if_neg h2]
        rw [firstSome_cons]
        by_cases h3 : existingSameDirection st symbol direction = true
        · simp [symbolConflictCheck, h3]
        · rw [if_neg h3]
          simp only [symbolConflictCheck, if_neg h3]
          rw [firstSome_cons]
          by_cases h4 : cfg.MAX_PORTFOLIO_HEAT ≤ calculatePortfolioHeat env cfg st
          · simp [heatCheck, h4]
          · rw [if_neg h4]
            simp only [heatCheck, if_neg h4]
            rw [firstSome_cons]
            cases hs : (getSectorIndustry env symbol).1 with
            | none =>
              simp only [sectorCheck, hs]
              rw [firstSome_cons]
              cases hi : (getSectorIndustry env symbol).2 with
              | none =>
                simp only [industryCheck, hi]
                rw [firstSome_cons]
                by_cases h7 : direction = "LONG" ∧ (calculateDirectionalExposure st).1 >
                    cfg.MAX_DIRECTIONAL_BIAS *
                      ((calculateDirectionalExposure st).1 + (calculateDirectionalExposure st).2)
                · simp [biasCheck, h7]
                · rw [if_neg h7]
                  by_cases h8 : direction = "SHORT" ∧ (calculateDirectionalExposure st).2 >
                      cfg.MAX_DIRECTIONAL_BIAS *
                        ((calculateDirectionalExposure st).1 + (calculateDirectionalExposure st).2)
                  · simp [biasCheck, h7, h8]
                  · rw [if_neg h8]
                    simp only [biasCheck, if_neg h7, if_neg h8]
                    rw [firstSome_cons]
                    cases hb : env.broker with
                    | none => simp [buyingPowerCheck, hb, firstSome]
                    | some b =>
                      by_cases h9 : b.available_funds < cfg.MIN_BUYING_POWER
                      · simp [buyingPowerCheck, hb, h9]
                      · simp [buyingPowerCheck, hb, h9, firstSome]
              | some i =>
                by_cases h6 : lookupD st.industry_exposure i 0 + cost_per_contract >
                    getAccountValue env * cfg.MAX_INDUSTRY_EXPOSURE
                · simp [industryCheck, hi, h6]
                · simp only [industryCheck, hi, if_neg h6]
                  rw [firstSome_cons]
                  by_cases h7 : direction = "LONG" ∧ (calculateDirectionalExposure st).1 >
                      cfg.MAX_DIRECTIONAL_BIAS *
                        ((calculateDirectionalExposure st).1 + (calculateDirectionalExposure st).2)
                  · simp [biasCheck, h7]
                  · rw [if_neg h7]
                    by_cases h8 : direction = "SHORT" ∧ (calculateDirectionalExposure st).2 >
                        cfg.MAX_DIRECTIONAL_BIAS *
                          ((calculateDirectionalExposure st).1 + (calculateDirectionalExposure st).2)
                    · simp [biasCheck, h7, h8]
                    · rw [if_neg h8]
                      simp only [biasCheck, if_neg h7, if_neg h8]
                      rw [firstSome_cons]
                      cases hb : env.broker with
                      | none => simp [buyingPowerCheck, hb, firstSome]
                      | some b =>
                        by_cases h9 : b.available_funds < cfg.MIN_BUYING_POWER
                        · simp [buyingPowerCheck, hb, h9]
                        · simp [buyingPowerCheck, hb, h9, firstSome]
            | some s =>
              by_cases h5 : lookupD st.sector_exposure s 0 + cost_per_contract >
                  getAccountValue env * cfg.MAX_SECTOR_EXPOSURE
              · simp [sectorCheck, hs, h5]
              · simp only [sectorCheck, hs, if_neg h5]
                rw [firstSome_cons]
                cases hi : (getSectorIndustry env symbol).2 with
                | none =>
                  simp only [industryCheck, hi]
                  rw [firstSome_cons]
                  by_cases h7 : direction = "LONG" ∧ (calculateDirectionalExposure st).1 >
                      cfg.MAX_DIRECTIONAL_BIAS *
                        ((calculateDirectionalExposure st).1 + (calculateDirectionalExposure st).2)
                  · simp [biasCheck, h7]
                  · rw [if_neg h7]
                    by_cases h8 : direction = "SHORT" ∧ (calculateDirectionalExposure st).2 >
                        cfg.MAX_DIRECTIONAL_BIAS *
                          ((calculateDirectionalExposure st).1 + (calculateDirectionalExposure st).2)
                    · simp [biasCheck, h7, h8]
                    · rw [if_neg h8]
                      simp only [biasCheck, if_neg h7, if_neg h8]
                      rw [firstSome_cons]
                      cases hb : env.broker with
                      | none => simp [buyingPowerCheck, hb, firstSome]
                      | some b =>
                        by_cases h9 : b.available_funds < cfg.MIN_BUYING_POWER
                        · simp [buyingPowerCheck, hb, h9]
                        · simp [buyingPowerCheck, hb, h9, firstSome]
                | some i =>
                  by_cases h6 : lookupD st.industry_exposure i 0 + cost_per_contract >
                      getAccountValue env * cfg.MAX_INDUSTRY_EXPOSURE
                  · simp [industryCheck, hi, h6]
                  · simp only [industryCheck, hi, if_neg h6]
                    rw [firstSome_cons]
                    by_cases h7 : direction = "LONG" ∧ (calculateDirectionalExposure st).1 >
                        cfg.MAX_DIRECTIONAL_BIAS *
                          ((calculateDirectionalExposure st).1 + (calculateDirectionalExposure st).2)
                    · simp [biasCheck, h7]
                    · rw [if_neg h7]
                      by_cases h8 : direction = "SHORT" ∧ (calculateDirectionalExposure st).2 >
                          cfg.MAX_DIRECTIONAL_BIAS *
                            ((calculateDirectionalExposure st).1 + (calculateDirectionalExposure st).2)
                      · simp [biasCheck, h7, h8]
                      · rw [if_neg h8]
                        simp only [biasCheck, if_neg h7, if_neg h8]
                        rw [firstSome_cons]
                        cases hb : env.broker with
                        | none => simp [buyingPowerCheck, hb, firstSome]
                        | some b =>
                          by_cases h9 : b.available_funds < cfg.MIN_BUYING_POWER
                          · simp [buyingPowerCheck, hb, h9]
                          · simp [buyingPowerCheck, hb, h9, firstSome]
  · intro cfg env st today symbol direction cost_per_contract hM hlen
    have hcond : cfg.MAX_DAILY_TRADES ≤ (lookupD st.daily_trades today []).length := by
      rw [hM, hlen]
    simp only [canEnterTrade]
    rw [if_pos hcond, hM]
    rfl

/-- Witness for C4 (Scenario C) at a risk state holding three trades on
2026-10-12. -/
theorem canEnterTrade_order_and_scenarioC_witness :
    canEnterTrade demoConfig demoEnvNone demoRiskStateMaxed "2026-10-12" "AAPL"
      "LONG" 0 = (false, "Maximum daily trades limit (3) reached") :=
  canEnterTrade_order_and_scenarioC.2 demoConfig demoEnvNone demoRiskStateMaxed
    "2026-10-12" "AAPL" "LONG" 0 rfl (by decide)

/-! ### C5 — sector exposure is not capped by `record_trade` -/

theorem recordTrade_sector_additive (cfg : Config) (env : Env) (st : RiskState)
    (sym dir : String) (contracts : ℤ) (spread : OptionSpread)
    (today : String) (now : ℚ) (s : String)
    (hs : (getSectorIndustry env sym).1 = some s) :
    lookupD (recordTrade cfg env st sym dir contracts spread today
        now).sector_exposure s 0 =
      lookupD st.sector_exposure s 0 + spread.cost * (contracts : ℚ) * 100 := by
  simp only [recordTrade, hs]
  rw [lookupD_setKey_self]

theorem closePosition_sector_subtractive (env : Env) (st : RiskState)
    (sym : String) (pos : Position) (s : String)
    (hp : List.lookup sym st.active_positions = some pos)
    (hs : (getSectorIndustry env sym).1 = some s) :
    (closePosition env st sym).sector_exposure =
      decExposure st.sector_exposure s
        (pos.spread.cost * (pos.contracts : ℚ) * 100) := by
  simp only [closePosition, hp, hs]

/-- C5 (amended): `record_trade` adds exactly
`spread.cost · contracts · 100` to the traded symbol's sector exposure,
unconditionally — no `account_value · MAX_SECTOR_EXPOSURE` cap is
enforced anywhere in `record_trade`/`close_position` — and
`close_position` of an active position subtracts the position's
`cost · contracts · 100` (deleting entries that fall to zero or below).
The claimed bound itself is violated by a single call (see the
counterexample). -/
theorem sectorExposure_uncapped_additivity :
    (∀ (cfg : Config) (env : Env) (st : RiskState) (sym dir : String)
      (contracts : ℤ) (spread : OptionSpread) (today : String) (now : ℚ)
      (s : String),
      (getSectorIndustry env sym).1 = some s →
      lookupD (recordTrade cfg env st sym dir contracts spread today
          now).sector_exposure s 0 =
        lookupD st.sector_exposure s 0 + spread.cost * (contracts : ℚ) * 100) ∧
    (∀ (env : Env) (st : RiskState) (sym : String) (pos : Position) (s : String),
      List.lookup sym st.active_positions = some pos →
      (getSectorIndustry env sym).1 = some s →
      (closePosition env st sym).sector_exposure =
        decExposure st.sector_exposure s
          (pos.spread.cost * (pos.contracts : ℚ) * 100)) :=
  ⟨recordTrade_sector_additive, closePosition_sector_subtractive⟩

/-- Counterexample for C5 as stated: from the empty risk state, one
`record_trade` of one contract of a $100 spread puts $10000 into the
Technology sector while `account_value · MAX_SECTOR_EXPOSURE` is $5000 —
the "never exceeds" invariant fails after a single call. -/
theorem sectorExposure_bound_violated :
    getAccountValue demoEnvBroker * demoConfig.MAX_SECTOR_EXPOSURE = 5000 ∧
    lookupD (recordTrade demoConfig demoEnvBroker initRiskState "AAPL" "LONG" 1
        demoSpread100 "2026-10-12" 0).sector_exposure "Technology" 0 = 10000 ∧
    (5000 : ℚ) < 10000 := by
  refine ⟨?_, ?_, by norm_num⟩
  · norm_num [getAccountValue, demoEnvBroker, demoBroker, demoConfig]
  · rw [recordTrade_sector_additive demoConfig demoEnvBroker initRiskState
      "AAPL" "LONG" 1 demoSpread100 "2026-10-12" 0 "Technology" (by decide)]
    norm_num [initRiskState, lookupD, demoSpread100, mkOptionSpread]

/-- Witness for the amended C5 at the same concrete trade. -/
theorem sectorExposure_uncapped_additivity_witness :
    lookupD (recordTrade demoConfig demoEnvBroker initRiskState "AAPL" "LONG" 1
        demoSpread100 "2026-10-12" 0).sector_exposure "Technology" 0 =
      lookupD initRiskState.sector_exposure "Technology" 0 +
        demoSpread100.cost * ((1 : ℤ) : ℚ) * 100 :=
  sectorExposure_uncapped_additivity.1 demoConfig demoEnvBroker initRiskState
    "AAPL" "LONG" 1 demoSpread100 "2026-10-12" 0 "Technology" (by decide)

end IBKR
